import Mathlib

/-!
Verification of `src/actions/light.ts`, a Stream Deck plugin action that picks
an RGB color via an external process and dispatches it to smart lights over
HTTP.  The TypeScript source is embedded shallowly: JavaScript numeric
operators are modelled on `Int` with their ECMAScript integer semantics made
explicit, event handlers become pure functions from their inputs (the settings
records read, the color-picker outcome) to a trace of host effects, and the
fire-and-forget HTTP dispatch becomes a function from the configuration to the
list of issued requests.
-/

/-! ### JavaScript numeric and string primitives -/

/-- ECMAScript `ToInt32`: reduce an integer modulo 2^32 into `[-2^31, 2^31)`. -/
def toInt32 (n : Int) : Int :=
  (n + 2147483648) % 4294967296 - 2147483648

/-- JavaScript `a << k` on integers: both operands pass through `ToInt32`
(shift count taken mod 32) and the result is again a 32-bit signed integer. -/
def jsShl (a : Int) (k : Nat) : Int :=
  toInt32 (toInt32 a * 2 ^ (k % 32))

/-- Hex digits of a natural number, most significant first, as produced by
JavaScript `Number.prototype.toString(16)` on a non-negative integer
(`Nat.digitChar` yields the lowercase digits `0`-`9`, `a`-`f`). -/
def natToHex (n : Nat) : List Char :=
  if _h : n < 16 then [Nat.digitChar n]
  else natToHex (n / 16) ++ [Nat.digitChar (n % 16)]
decreasing_by exact Nat.div_lt_self (by omega) (by omega)

/-- JavaScript `n.toString(16)` for an integer-valued number. -/
def jsToString16 (n : Int) : String :=
  if n < 0 then "-" ++ String.mk (natToHex n.natAbs)
  else String.mk (natToHex n.toNat)

/-- JavaScript `s.slice(1)` for ASCII strings: drop the first character. -/
def jsSlice1 (s : String) : String :=
  String.mk s.data.tail

/-- JavaScript `s.toUpperCase()` for ASCII strings. -/
def jsToUpperCase (s : String) : String :=
  String.mk (s.data.map Char.toUpper)

/-- The hex string computed on the short-press path of `onKeyUp`:

`"#" + ((1 << 24) + (color[0] << 16) + (color[1] << 8) + color[2]).toString(16).slice(1).toUpperCase()`

For an integer array of length at least 3 the arithmetic is exact; for a
shorter array `color[2]` is `undefined`, the sum is `NaN`, and
`"NaN".slice(1).toUpperCase()` gives `"AN"` (indices 0 and 1, if also
`undefined`, pass through `ToInt32` inside `<<` and become `0`, so only the
unshifted `color[2]` can make the sum `NaN`). -/
def jsColorHex (color : List Int) : String :=
  match color with
  | r :: g :: b :: _ =>
    "#" ++ jsToUpperCase (jsSlice1 (jsToString16
      (jsShl 1 24 + jsShl r 16 + jsShl g 8 + b)))
  | _ => "#" ++ jsToUpperCase (jsSlice1 "NaN")

/-- JavaScript `Array.prototype.toString` on an integer array: the elements'
decimal representations joined with `","`. -/
def jsArrayToString (l : List Int) : String :=
  String.intercalate "," (l.map (fun i => toString i))

/-! ### The spec's hex-formatting formula (for comparison with the code) -/

/-- Modelled from the spec: the 2-digit uppercase hexadecimal representation
of a channel value in `[0, 255]`. -/
def twoDigitUpperHex (n : Nat) : String :=
  String.mk [(Nat.digitChar (n / 16)).toUpper, (Nat.digitChar (n % 16)).toUpper]

/-- Modelled from the spec: `hex(r,g,b) = "#" + hh(r) + hh(g) + hh(b)`. -/
def specHexFormat (r g b : Nat) : String :=
  "#" ++ twoDigitUpperHex r ++ twoDigitUpperHex g ++ twoDigitUpperHex b

/-! ### Settings record -/

/-- The `showValue` display-mode enum of `LightSettings`. -/
inductive ShowValue where
  | hex
  | rgb
  | none
deriving DecidableEq, Repr

/-- The persisted per-button settings record (`type LightSettings`).
`colorRgb` is `Option`al: a fresh button's settings object lacks the field
(`undefined`, which is falsy, while any array — even empty — is truthy). -/
structure LightSettings where
  colorHex : String
  colorRgb : Option (List Int)
  isDown : Bool
  longPress : Bool
  delay : Nat
  showValue : ShowValue
  lights : String
  url : String
  token : String
deriving DecidableEq, Repr

/-! ### Light dispatcher (`changeLampColor`) -/

/-- One HTTP request as built by `changeLampColor`.  `entityId` is `Option`al
because JavaScript `split` on a regex with a capturing group splices the
captured group into the result array, and an unmatched optional group appears
as `undefined`. -/
structure HttpRequest where
  url : String
  method : String
  authorization : String
  contentType : String
  entityId : Option String
  rgbColor : List Int
deriving DecidableEq, Repr

/-- JavaScript `s.split(/,( )?/)`: split on a comma optionally followed by a
space; because `( )?` is a capturing group, its value (`" "` when the space
was consumed, `undefined` otherwise) is spliced into the result between the
fragments. -/
def splitLightsAux (acc : List Char) : List Char → List (Option String)
  | [] => [some (String.mk acc.reverse)]
  | ',' :: ' ' :: rest =>
    some (String.mk acc.reverse) :: some " " :: splitLightsAux [] rest
  | ',' :: rest =>
    some (String.mk acc.reverse) :: none :: splitLightsAux [] rest
  | c :: rest => splitLightsAux (c :: acc) rest

/-- `settings.lights.split(/,( )?/)` as a list of fragments and captures. -/
def splitLights (s : String) : List (Option String) :=
  splitLightsAux [] s.data

/-- `changeLampColor(color, settings)`: one POST per element of the split
`lights` string.  `fetchOk` is an oracle saying whether a given request's
`fetch`/`.then` chain succeeds; a failure is consumed by the trailing
`.catch`, which logs `"Error:"` — the function itself never throws, and the
list of issued requests does not depend on the oracle (fire-and-forget). -/
def changeLampColor (color : List Int) (settings : LightSettings)
    (fetchOk : HttpRequest → Bool) : List HttpRequest × List String :=
  let reqs := (splitLights settings.lights).map (fun light =>
    { url := settings.url ++ "/api/services/light/turn_on"
      method := "POST"
      authorization := "Bearer " ++ settings.token
      contentType := "application/json"
      entityId := light
      rgbColor := color })
  (reqs, (reqs.filter (fun r => !(fetchOk r))).map (fun _ => "Error:"))

/-! ### Title rendering (`setTitle`) -/

/-- `setTitle(settings, change)`: the title string passed to the host's
`change` callback.  JavaScript truthiness: a string is truthy iff non-empty;
an array (even empty) is always truthy, while an absent field (`undefined`)
is falsy. -/
def setTitle (settings : LightSettings) : String :=
  if settings.showValue = ShowValue.hex ∧ settings.colorHex ≠ "" then
    settings.colorHex
  else if settings.showValue = ShowValue.rgb ∧ settings.colorRgb.isSome = true then
    jsArrayToString (settings.colorRgb.getD [])
  else
    "Color\nPicker"

/-! ### Thumbnail renderer (`createPngBase64`) -/

/-- The raw RGBA byte buffer of a `pngjs` image, indexed by byte offset.
`pngjs` allocates it zero-filled. -/
def Buf : Type := Nat → Nat

/-- One byte store `png.data[i] = v`: a Node `Buffer` element assignment
keeps the value's low 8 bits. -/
def setByte (buf : Buf) (i v : Nat) : Buf :=
  Function.update buf i (v % 256)

/-- The body of the fill loop: the four stores at `idx` .. `idx + 3`. -/
def writePixel (buf : Buf) (idx r g b : Nat) : Buf :=
  setByte (setByte (setByte (setByte buf idx r) (idx + 1) g) (idx + 2) b)
    (idx + 3) 255

/-- The double fill loop of `createPngBase64` over a 128×128 image:
`idx = (width * y + x) << 2`. -/
def pngData (r g b : Nat) : Buf :=
  (List.range 128).foldl
    (fun buf y =>
      (List.range 128).foldl
        (fun buf x => writePixel buf ((128 * y + x) * 4) r g b) buf)
    (fun _ => 0)

/-- `createPngBase64([r, g, b])`.  PNG encoding (`PNG.sync.write`) and base64
rendering (`buffer.toString("base64")`) belong to external libraries and are
taken as parameters; the function fills the pixel buffer and prepends the
data-URL header.  A missing channel (array shorter than 3) is `undefined`,
which a `Buffer` store turns into byte 0. -/
def createPngBase64 {E : Type} (pngSyncWrite : Buf → E) (base64 : E → String)
    (color : List Nat) : String :=
  "data:image/png;base64," ++
    base64 (pngSyncWrite
      (pngData (color.getD 0 0) (color.getD 1 0) (color.getD 2 0)))

/-! ### Event handlers as effect traces -/

/-- A host effect issued by a handler, in program order.  `dispatch` records a
call to `changeLampColor` with its two arguments; `setImage` records the color
argument passed to `createPngBase64`. -/
inductive Effect where
  | setSettings (s : LightSettings)
  | setTitle (t : String)
  | setImage (color : List Int)
  | pickColor
  | dispatch (color : Option (List Int)) (settings : LightSettings)
deriving DecidableEq, Repr

/-- Outcome of `execFileAsync("pick-color.exe")` followed by
`JSON.parse(stdout.trim())`: the spawn can fail, the output can fail to parse
as JSON, or it parses as a JSON array of integers. -/
inductive PickerResult where
  | execError
  | parseError
  | ok (color : List Int)
deriving DecidableEq, Repr

/-- An exception escaping a handler (the handler's promise rejects). -/
inductive JsError where
  | pickerExecError
  | jsonParseError
deriving DecidableEq, Repr

namespace Light

/-- `onKeyDown`: `s` is the settings record read at entry, `s'` the record
re-read after the `settings.delay` sleep.  Returns the effect trace and the
error, if any, escaping the handler. -/
def onKeyDown (s s' : LightSettings) : List Effect × Option JsError :=
  let e1 := Effect.setSettings { s with isDown := true }
  if s'.isDown = false then ([e1], none)
  else
    ([e1, Effect.setSettings { s' with longPress := true },
      Effect.dispatch s'.colorRgb s'], none)

/-- `onKeyUp`: `s` is the settings record read at entry, `pr` the outcome of
the color-picker invocation (only consulted on the short-press path). -/
def onKeyUp (s : LightSettings) (pr : PickerResult) :
    List Effect × Option JsError :=
  let e1 := Effect.setSettings { s with isDown := false }
  if s.longPress = false then
    match pr with
    | .execError => ([e1, .pickColor], some .pickerExecError)
    | .parseError => ([e1, .pickColor], some .jsonParseError)
    | .ok color =>
      ([e1, .pickColor,
        .dispatch (some color) s,
        .setSettings
          { s with
            isDown := false
            colorHex := jsColorHex color
            longPress := false
            colorRgb := some color },
        .setTitle (setTitle s),
        .setImage color], none)
  else
    ([e1, .setSettings { s with longPress := false }], none)

end Light

/-- The payload of the last `setSettings` call of a trace: the record that
ends up persisted once the handler has run. -/
def lastWrite (tr : List Effect) : Option LightSettings :=
  tr.foldl
    (fun acc e => match e with | Effect.setSettings w => some w | _ => acc)
    none

/-- The payloads of all `setSettings` calls of a trace, in order. -/
def writesOf (tr : List Effect) : List LightSettings :=
  tr.filterMap
    (fun e => match e with | Effect.setSettings w => some w | _ => none)

/-- The number of `dispatch` calls in a trace. -/
def dispatchCount (tr : List Effect) : Nat :=
  tr.countP (fun e => match e with | Effect.dispatch _ _ => true | _ => false)

/-! ### Auxiliary definitions for the proofs -/

/-- The low `k` hex digits of `n`, most significant first. -/
def padHex : Nat → Nat → List Char
  | 0, _ => []
  | k + 1, n => padHex k (n / 16) ++ [Nat.digitChar (n % 16)]

/-- The inner fill loop over one row `y`, running `x` from `0` to `n - 1`. -/
def innerFold (r g b y : Nat) (buf : Buf) (n : Nat) : Buf :=
  (List.range n).foldl (fun buf x => writePixel buf ((128 * y + x) * 4) r g b)
    buf

/-- The outer fill loop over rows `0` to `m - 1`. -/
def outerFold (r g b : Nat) (m : Nat) : Buf :=
  (List.range m).foldl (fun buf y => innerFold r g b y buf 128) (fun _ => 0)

/-- A concrete, fully populated settings record used to instantiate the
theorems. -/
def sampleSettings : LightSettings :=
  { colorHex := "#112233"
    colorRgb := some [17, 34, 51]
    isDown := false
    longPress := false
    delay := 200
    showValue := ShowValue.hex
    lights := "kitchen, bedroom"
    url := "http://homeassistant.local:8123"
    token := "secret" }

/-- The settings record read at the start of `onKeyUp` after a long press:
the key-down handler has set `isDown` and its timer has set `longPress`. -/
def longPressEntry : LightSettings :=
  { sampleSettings with isDown := true, longPress := true }

/-! ### Hex-formatting lemmas -/

theorem natToHex_lt {n : Nat} (h : n < 16) : natToHex n = [Nat.digitChar n] := by
  rw [natToHex]
  exact dif_pos h

theorem natToHex_ge {n : Nat} (h : ¬ n < 16) :
    natToHex n = natToHex (n / 16) ++ [Nat.digitChar (n % 16)] := by
  rw [natToHex]
  exact dif_neg h

theorem natToHex_split (k : Nat) : ∀ a b : Nat, 0 < a → b < 16 ^ k →
    natToHex (a * 16 ^ k + b) = natToHex a ++ padHex k b := by
  induction k with
  | zero =>
    intro a b _ hb
    have hb0 : b = 0 := by omega
    simp [hb0, padHex]
  | succ k ih =>
    intro a b ha hb
    have hpow : (16 : Nat) ^ (k + 1) = 16 ^ k * 16 := by ring
    have hp : (16 : Nat) ≤ 16 ^ (k + 1) := by
      calc (16 : Nat) = 16 ^ 1 := by norm_num
      _ ≤ 16 ^ (k + 1) := Nat.pow_le_pow_right (by omega) (by omega)
    have hmul : 16 ^ (k + 1) ≤ a * 16 ^ (k + 1) :=
      Nat.le_mul_of_pos_left _ ha
    have hbig : ¬ a * 16 ^ (k + 1) + b < 16 := by omega
    rw [natToHex_ge hbig]
    have harr : a * 16 ^ (k + 1) + b = b + a * 16 ^ k * 16 := by
      rw [hpow]; ring
    have hdiv : (a * 16 ^ (k + 1) + b) / 16 = a * 16 ^ k + b / 16 := by
      rw [harr, Nat.add_mul_div_right _ _ (by omega : (0:Nat) < 16)]
      omega
    have hmod : (a * 16 ^ (k + 1) + b) % 16 = b % 16 := by
      rw [harr, Nat.add_mul_mod_self_right]
    have hb16 : b / 16 < 16 ^ k := by
      rw [hpow] at hb
      omega
    rw [hdiv, hmod, ih a (b / 16) ha hb16]
    simp [padHex]

theorem padHex_split (k2 : Nat) : ∀ k1 hi lo : Nat, lo < 16 ^ k2 →
    padHex (k1 + k2) (hi * 16 ^ k2 + lo) = padHex k1 hi ++ padHex k2 lo := by
  induction k2 with
  | zero =>
    intro k1 hi lo hlo
    have hlo0 : lo = 0 := by omega
    simp [hlo0, padHex]
  | succ k2 ih =>
    intro k1 hi lo hlo
    have hpow : (16 : Nat) ^ (k2 + 1) = 16 ^ k2 * 16 := by ring
    have harr : hi * 16 ^ (k2 + 1) + lo = lo + hi * 16 ^ k2 * 16 := by
      rw [hpow]; ring
    have hdiv : (hi * 16 ^ (k2 + 1) + lo) / 16 = hi * 16 ^ k2 + lo / 16 := by
      rw [harr, Nat.add_mul_div_right _ _ (by omega : (0:Nat) < 16)]
      omega
    have hmod : (hi * 16 ^ (k2 + 1) + lo) % 16 = lo % 16 := by
      rw [harr, Nat.add_mul_mod_self_right]
    have hlo16 : lo / 16 < 16 ^ k2 := by
      rw [hpow] at hlo
      omega
    have hk : k1 + (k2 + 1) = (k1 + k2) + 1 := rfl
    rw [hk, padHex, hdiv, hmod, ih k1 hi (lo / 16) hlo16]
    simp [padHex]

theorem padHex_two (n : Nat) :
    padHex 2 n = [Nat.digitChar (n / 16 % 16), Nat.digitChar (n % 16)] := by
  simp [padHex]

/-- Digit decomposition of the number built on the short-press path:
`0x1000000 + r*0x10000 + g*0x100 + b` renders as `'1'` followed by the six
hex digits of the three channels. -/
theorem natToHex_rgb (r g b : Nat) (hr : r ≤ 255) (hg : g ≤ 255)
    (hb : b ≤ 255) :
    natToHex (16777216 + (r * 65536 + (g * 256 + b))) =
      '1' :: (padHex 2 r ++ (padHex 2 g ++ padHex 2 b)) := by
  have h6 : 16777216 + (r * 65536 + (g * 256 + b)) =
      1 * 16 ^ 6 + (r * 65536 + (g * 256 + b)) := by norm_num
  have hlt : r * 65536 + (g * 256 + b) < 16 ^ 6 := by norm_num; omega
  rw [h6, natToHex_split 6 1 _ (by omega) hlt, natToHex_lt (by omega)]
  have h42 : r * 65536 + (g * 256 + b) = r * 16 ^ 4 + (g * 256 + b) := by
    norm_num
  have h4 : (6 : Nat) = 2 + 4 := by norm_num
  have hlt4 : g * 256 + b < 16 ^ 4 := by norm_num; omega
  rw [h42, h4, padHex_split 4 2 r _ hlt4]
  have h22 : g * 256 + b = g * 16 ^ 2 + b := by norm_num
  have h2 : (4 : Nat) = 2 + 2 := by norm_num
  rw [h22, h2, padHex_split 2 2 g b (by norm_num; omega)]
  norm_num [Nat.digitChar]

/-- On integer channels in `[0, 255]` the JavaScript hex computation agrees
with the spec's formatting formula. -/
theorem jsColorHex_eq_specHexFormat (r g b : Int) (rest : List Int)
    (hr0 : 0 ≤ r) (hr1 : r ≤ 255) (hg0 : 0 ≤ g) (hg1 : g ≤ 255)
    (hb0 : 0 ≤ b) (hb1 : b ≤ 255) :
    jsColorHex (r :: g :: b :: rest) =
      specHexFormat r.toNat g.toNat b.toNat := by
  have e1 : jsShl 1 24 = 16777216 := by decide
  have e2 : jsShl r 16 = r * 65536 := by
    have hp : (2 : Int) ^ (16 % 32) = 65536 := by norm_num
    unfold jsShl toInt32
    rw [hp]
    omega
  have e3 : jsShl g 8 = g * 256 := by
    have hp : (2 : Int) ^ (8 % 32) = 256 := by norm_num
    unfold jsShl toInt32
    rw [hp]
    omega
  have esum : jsShl 1 24 + jsShl r 16 + jsShl g 8 + b =
      ((16777216 + (r.toNat * 65536 + (g.toNat * 256 + b.toNat)) : Nat) : Int) := by
    rw [e1, e2, e3]
    omega
  show "#" ++ jsToUpperCase (jsSlice1 (jsToString16
      (jsShl 1 24 + jsShl r 16 + jsShl g 8 + b))) = _
  rw [esum]
  unfold jsToString16
  rw [if_neg (by omega), Int.toNat_natCast,
    natToHex_rgb r.toNat g.toNat b.toNat (by omega) (by omega) (by omega)]
  apply String.ext
  rw [padHex_two, padHex_two, padHex_two,
    Nat.mod_eq_of_lt (show r.toNat / 16 < 16 by omega),
    Nat.mod_eq_of_lt (show g.toNat / 16 < 16 by omega),
    Nat.mod_eq_of_lt (show b.toNat / 16 < 16 by omega)]
  simp [String.data_append, specHexFormat, twoDigitUpperHex, jsToUpperCase,
    jsSlice1]

/-! ### Pixel-buffer lemmas -/

theorem setByte_same (buf : Buf) (i v : Nat) : setByte buf i v i = v % 256 := by
  simp [setByte]

theorem setByte_other (buf : Buf) (i v j : Nat) (h : j ≠ i) :
    setByte buf i v j = buf j := by
  simp [setByte, Function.update_noteq h]

theorem writePixel_other (buf : Buf) (idx r g b i : Nat)
    (h : i < idx ∨ idx + 3 < i) : writePixel buf idx r g b i = buf i := by
  unfold writePixel
  rw [setByte_other _ _ _ _ (by omega), setByte_other _ _ _ _ (by omega),
    setByte_other _ _ _ _ (by omega), setByte_other _ _ _ _ (by omega)]

theorem writePixel_at (buf : Buf) (idx r g b : Nat) :
    writePixel buf idx r g b idx = r % 256 ∧
    writePixel buf idx r g b (idx + 1) = g % 256 ∧
    writePixel buf idx r g b (idx + 2) = b % 256 ∧
    writePixel buf idx r g b (idx + 3) = 255 := by
  unfold writePixel
  refine ⟨?_, ?_, ?_, ?_⟩
  · rw [setByte_other _ _ _ _ (by omega), setByte_other _ _ _ _ (by omega),
      setByte_other _ _ _ _ (by omega), setByte_same]
  · rw [setByte_other _ _ _ _ (by omega), setByte_other _ _ _ _ (by omega),
      setByte_same]
  · rw [setByte_other _ _ _ _ (by omega), setByte_same]
  · rw [setByte_same]

theorem innerFold_preserve (r g b y n : Nat) (buf : Buf) (i : Nat)
    (h : i < 128 * y * 4) : innerFold r g b y buf n i = buf i := by
  induction n with
  | zero => rfl
  | succ n ih =>
    show ((List.range (n + 1)).foldl
      (fun buf x => writePixel buf ((128 * y + x) * 4) r g b) buf) i = buf i
    rw [List.range_succ, List.foldl_append, List.foldl_cons, List.foldl_nil]
    rw [writePixel_other _ _ _ _ _ _ (Or.inl (by omega))]
    exact ih

theorem innerFold_set (r g b y n : Nat) (buf : Buf) (x : Nat) (hx : x < n) :
    innerFold r g b y buf n ((128 * y + x) * 4) = r % 256 ∧
    innerFold r g b y buf n ((128 * y + x) * 4 + 1) = g % 256 ∧
    innerFold r g b y buf n ((128 * y + x) * 4 + 2) = b % 256 ∧
    innerFold r g b y buf n ((128 * y + x) * 4 + 3) = 255 := by
  induction n with
  | zero => omega
  | succ n ih =>
    have hstep : ∀ i : Nat, innerFold r g b y buf (n + 1) i =
        writePixel (innerFold r g b y buf n) ((128 * y + n) * 4) r g b i := by
      intro i
      show ((List.range (n + 1)).foldl
        (fun buf x => writePixel buf ((128 * y + x) * 4) r g b) buf) i = _
      rw [List.range_succ, List.foldl_append, List.foldl_cons, List.foldl_nil]
      rfl
    rw [hstep, hstep, hstep, hstep]
    rcases Nat.lt_or_ge x n with hlt | hge
    · have hih := ih hlt
      refine ⟨?_, ?_, ?_, ?_⟩
      · rw [writePixel_other _ _ _ _ _ _ (Or.inl (by omega))]
        exact hih.1
      · rw [writePixel_other _ _ _ _ _ _ (Or.inl (by omega))]
        exact hih.2.1
      · rw [writePixel_other _ _ _ _ _ _ (Or.inl (by omega))]
        exact hih.2.2.1
      · rw [writePixel_other _ _ _ _ _ _ (Or.inl (by omega))]
        exact hih.2.2.2
    · have hxn : x = n := by omega
      subst hxn
      exact writePixel_at _ _ _ _ _

theorem outerFold_set (r g b : Nat) (m : Nat) (x y : Nat) (hy : y < m)
    (hx : x < 128) :
    outerFold r g b m ((128 * y + x) * 4) = r % 256 ∧
    outerFold r g b m ((128 * y + x) * 4 + 1) = g % 256 ∧
    outerFold r g b m ((128 * y + x) * 4 + 2) = b % 256 ∧
    outerFold r g b m ((128 * y + x) * 4 + 3) = 255 := by
  induction m with
  | zero => omega
  | succ m ih =>
    have hstep : ∀ i : Nat, outerFold r g b (m + 1) i =
        innerFold r g b m (outerFold r g b m) 128 i := by
      intro i
      show ((List.range (m + 1)).foldl
        (fun buf y => innerFold r g b y buf 128) (fun _ => 0)) i = _
      rw [List.range_succ, List.foldl_append, List.foldl_cons, List.foldl_nil]
      rfl
    rw [hstep, hstep, hstep, hstep]
    rcases Nat.lt_or_ge y m with hlt | hge
    · have hih := ih hlt
      refine ⟨?_, ?_, ?_, ?_⟩
      · rw [innerFold_preserve _ _ _ _ _ _ _ (by omega)]
        exact hih.1
      · rw [innerFold_preserve _ _ _ _ _ _ _ (by omega)]
        exact hih.2.1
      · rw [innerFold_preserve _ _ _ _ _ _ _ (by omega)]
        exact hih.2.2.1
      · rw [innerFold_preserve _ _ _ _ _ _ _ (by omega)]
        exact hih.2.2.2
    · have hym : y = m := by omega
      subst hym
      exact innerFold_set _ _ _ _ _ _ _ hx

/-- `pngData` is the outer fold over all 128 rows. -/
theorem pngData_eq_outerFold (r g b : Nat) :
    pngData r g b = outerFold r g b 128 := rfl

theorem pngData_pixel (r g b x y : Nat) (hx : x < 128) (hy : y < 128)
    (hr : r ≤ 255) (hg : g ≤ 255) (hb : b ≤ 255) :
    pngData r g b ((128 * y + x) * 4) = r ∧
    pngData r g b ((128 * y + x) * 4 + 1) = g ∧
    pngData r g b ((128 * y + x) * 4 + 2) = b ∧
    pngData r g b ((128 * y + x) * 4 + 3) = 255 := by
  have h := outerFold_set r g b 128 x y hy hx
  rw [pngData_eq_outerFold]
  refine ⟨?_, ?_, ?_, ?_⟩
  · rw [h.1]; omega
  · rw [h.2.1]; omega
  · rw [h.2.2.1]; omega
  · exact h.2.2.2

/-! ### Claims -/

/-- Claim C1 (code evaluation at the failing input): with
`lights = "kitchen, bedroom"`, `changeLampColor` issues **three** POST
requests, not two: JavaScript `split` splices the capturing group `( )?` into
the array, so the captured `" "` becomes a third entity id between
`"kitchen"` and `"bedroom"`.  All requests do share the same `rgb_color`,
method and URL. -/
theorem claim_C1_code_eval :
    ((changeLampColor [255, 0, 128] sampleSettings (fun _ => true)).1.map
        (fun req => req.entityId) =
      [some "kitchen", some " ", some "bedroom"]) ∧
    (changeLampColor [255, 0, 128] sampleSettings (fun _ => true)).1.length
      = 3 ∧
    ((changeLampColor [255, 0, 128] sampleSettings (fun _ => true)).1.map
        (fun req => req.rgbColor) =
      [[255, 0, 128], [255, 0, 128], [255, 0, 128]]) ∧
    ((changeLampColor [255, 0, 128] sampleSettings (fun _ => true)).1.map
        (fun req => req.url) =
      ["http://homeassistant.local:8123/api/services/light/turn_on",
       "http://homeassistant.local:8123/api/services/light/turn_on",
       "http://homeassistant.local:8123/api/services/light/turn_on"]) := by
  decide

/-- Claim C2 (code evaluation at the failing input): for an `onKeyUp` whose
entry settings have `longPress = true` (and `isDown = true`, as after a real
long press), the trace is exactly the two settings writes — no picker, no
dispatch — but the **final** persisted record is `{...entry, longPress:
false}`, whose `isDown` is the stale entry value `true`, not `false`: the
second `setSettings` spreads the entry record and overwrites the first
write's `isDown: false`. -/
theorem claim_C2_code_eval :
    (Light.onKeyUp longPressEntry (PickerResult.ok [9, 9, 9]) =
      ([Effect.setSettings { longPressEntry with isDown := false },
        Effect.setSettings { longPressEntry with longPress := false }],
       none)) ∧
    (lastWrite (Light.onKeyUp longPressEntry (PickerResult.ok [9, 9, 9])).1 =
      some { longPressEntry with longPress := false }) ∧
    ((lastWrite
        (Light.onKeyUp longPressEntry (PickerResult.ok [9, 9, 9])).1).map
      (fun w => w.isDown) = some true) := by
  decide

/-- Claim C3 (counterexample): the handlers are *not* throw-free.  When the
color-picker process fails or its output fails to parse as JSON, `onKeyUp`'s
promise rejects: the error escapes the handler. -/
theorem claim_C3_counterexample :
    (Light.onKeyUp sampleSettings PickerResult.execError).2 =
      some JsError.pickerExecError ∧
    (Light.onKeyUp sampleSettings PickerResult.parseError).2 =
      some JsError.jsonParseError := by
  decide

/-- Claim C3 (amended): HTTP dispatch errors are caught by the per-request
`.catch` inside `changeLampColor` (the issued requests do not depend on the
fetch outcomes, and failures only produce log lines), and `onKeyDown` and the
long-press / successful short-press paths of `onKeyUp` complete without an
error; but a color-picker process failure or a JSON parse failure on the
short-press path propagates out of `onKeyUp` uncaught. -/
theorem claim_C3_amended :
    (∀ s s' : LightSettings, (Light.onKeyDown s s').2 = none) ∧
    (∀ (s : LightSettings) (pr : PickerResult), s.longPress = true →
      (Light.onKeyUp s pr).2 = none) ∧
    (∀ (s : LightSettings) (c : List Int),
      (Light.onKeyUp s (PickerResult.ok c)).2 = none) ∧
    (∀ s : LightSettings, s.longPress = false →
      (Light.onKeyUp s PickerResult.execError).2 =
        some JsError.pickerExecError ∧
      (Light.onKeyUp s PickerResult.parseError).2 =
        some JsError.jsonParseError) ∧
    (∀ (color : List Int) (settings : LightSettings)
        (fetchOk : HttpRequest → Bool),
      (changeLampColor color settings fetchOk).1 =
        (changeLampColor color settings (fun _ => true)).1 ∧
      (changeLampColor color settings fetchOk).2.length =
        ((changeLampColor color settings fetchOk).1.filter
          (fun req => !(fetchOk req))).length) := by
  refine ⟨?_, ?_, ?_, ?_, ?_⟩
  · intro s s'
    by_cases h : s'.isDown = false <;> simp [Light.onKeyDown, h]
  · intro s pr h
    simp [Light.onKeyUp, h]
  · intro s c
    by_cases h : s.longPress = false <;> simp [Light.onKeyUp, h]
  · intro s h
    simp [Light.onKeyUp, h]
  · intro color settings fetchOk
    exact ⟨rfl, by simp [changeLampColor]⟩

/-- Witness for the amended claim C3 at concrete inputs. -/
theorem claim_C3_amended_witness :
    (Light.onKeyDown sampleSettings sampleSettings).2 = none ∧
    (Light.onKeyUp longPressEntry PickerResult.execError).2 = none ∧
    (Light.onKeyUp sampleSettings (PickerResult.ok [1, 2, 3])).2 = none ∧
    (Light.onKeyUp sampleSettings PickerResult.execError).2 =
      some JsError.pickerExecError := by
  refine ⟨claim_C3_amended.1 sampleSettings sampleSettings,
    claim_C3_amended.2.1 longPressEntry PickerResult.execError (by decide),
    claim_C3_amended.2.2.1 sampleSettings [1, 2, 3],
    (claim_C3_amended.2.2.2.1 sampleSettings (by decide)).1⟩

/-- Claim C4 (confirmed): for integer channels in `[0, 255]`, the hex string
computed on the short-press path equals `"#"` followed by the 2-digit
uppercase hexadecimal representations of the three channels. -/
theorem claim_C4 (r g b : Int) (rest : List Int)
    (hr0 : 0 ≤ r) (hr1 : r ≤ 255) (hg0 : 0 ≤ g) (hg1 : g ≤ 255)
    (hb0 : 0 ≤ b) (hb1 : b ≤ 255) :
    jsColorHex (r :: g :: b :: rest) =
      specHexFormat r.toNat g.toNat b.toNat :=
  jsColorHex_eq_specHexFormat r g b rest hr0 hr1 hg0 hg1 hb0 hb1

/-- Witness for claim C4: `(255, 0, 128)` yields `"#FF0080"`. -/
theorem claim_C4_witness : jsColorHex [255, 0, 128] = "#FF0080" := by
  have h := claim_C4 255 0 128 [] (by decide) (by decide) (by decide)
    (by decide) (by decide) (by decide)
  rw [h]
  decide

/-- Claim C5 (confirmed): every `setSettings` call of both handlers either
leaves `colorHex` and `colorRgb` unchanged from the record it spread (the
entry read `s` or the re-read `s'`), or — on the successful short-press path
with an in-range picker color — sets `colorRgb` to the new color and
`colorHex` to its hex formatting. -/
theorem claim_C5 (s s' : LightSettings) (r g b : Int)
    (hr0 : 0 ≤ r) (hr1 : r ≤ 255) (hg0 : 0 ≤ g) (hg1 : g ≤ 255)
    (hb0 : 0 ≤ b) (hb1 : b ≤ 255) :
    (∀ w ∈ writesOf (Light.onKeyDown s s').1,
      (w.colorHex = s.colorHex ∧ w.colorRgb = s.colorRgb) ∨
      (w.colorHex = s'.colorHex ∧ w.colorRgb = s'.colorRgb)) ∧
    (∀ w ∈ writesOf (Light.onKeyUp s (PickerResult.ok [r, g, b])).1,
      (w.colorHex = s.colorHex ∧ w.colorRgb = s.colorRgb) ∨
      (w.colorRgb = some [r, g, b] ∧
       w.colorHex = specHexFormat r.toNat g.toNat b.toNat)) ∧
    (∀ w ∈ writesOf (Light.onKeyUp s PickerResult.execError).1,
      w.colorHex = s.colorHex ∧ w.colorRgb = s.colorRgb) ∧
    (∀ w ∈ writesOf (Light.onKeyUp s PickerResult.parseError).1,
      w.colorHex = s.colorHex ∧ w.colorRgb = s.colorRgb) := by
  refine ⟨?_, ?_, ?_, ?_⟩
  · intro w hw
    by_cases h : s'.isDown = false
    · simp [Light.onKeyDown, h, writesOf] at hw
      subst hw
      exact Or.inl ⟨rfl, rfl⟩
    · simp [Light.onKeyDown, h, writesOf] at hw
      rcases hw with hw | hw
      · subst hw
        exact Or.inl ⟨rfl, rfl⟩
      · subst hw
        exact Or.inr ⟨rfl, rfl⟩
  · intro w hw
    by_cases h : s.longPress = false
    · simp [Light.onKeyUp, h, writesOf] at hw
      rcases hw with hw | hw
      · subst hw
        exact Or.inl ⟨rfl, rfl⟩
      · subst hw
        refine Or.inr ⟨rfl, ?_⟩
        show jsColorHex (r :: g :: b :: []) = _
        exact jsColorHex_eq_specHexFormat r g b [] hr0 hr1 hg0 hg1 hb0 hb1
    · simp [Light.onKeyUp, h, writesOf] at hw
      rcases hw with hw | hw
      · subst hw
        exact Or.inl ⟨rfl, rfl⟩
      · subst hw
        exact Or.inl ⟨rfl, rfl⟩
  · intro w hw
    by_cases h : s.longPress = false
    · simp [Light.onKeyUp, h, writesOf] at hw
      subst hw
      exact ⟨rfl, rfl⟩
    · simp [Light.onKeyUp, h, writesOf] at hw
      rcases hw with hw | hw
      · subst hw
        exact ⟨rfl, rfl⟩
      · subst hw
        exact ⟨rfl, rfl⟩
  · intro w hw
    by_cases h : s.longPress = false
    · simp [Light.onKeyUp, h, writesOf] at hw
      subst hw
      exact ⟨rfl, rfl⟩
    · simp [Light.onKeyUp, h, writesOf] at hw
      rcases hw with hw | hw
      · subst hw
        exact ⟨rfl, rfl⟩
      · subst hw
        exact ⟨rfl, rfl⟩

/-- Witness for claim C5: the first write of the short-press path at concrete
inputs satisfies the invariant disjunction. -/
theorem claim_C5_witness :
    (({ sampleSettings with isDown := false } : LightSettings).colorHex =
        sampleSettings.colorHex ∧
      ({ sampleSettings with isDown := false } : LightSettings).colorRgb =
        sampleSettings.colorRgb) ∨
    (({ sampleSettings with isDown := false } : LightSettings).colorRgb =
        some [255, 0, 128] ∧
      ({ sampleSettings with isDown := false } : LightSettings).colorHex =
        specHexFormat (255 : Int).toNat (0 : Int).toNat (128 : Int).toNat) := by
  refine (claim_C5 sampleSettings sampleSettings 255 0 128 (by decide)
    (by decide) (by decide) (by decide) (by decide) (by decide)).2.1
    { sampleSettings with isDown := false } ?_
  simp [Light.onKeyUp, sampleSettings, writesOf]

/-- Claim C6 (confirmed): if the re-read settings at timer fire have
`isDown = false`, `onKeyDown`'s remaining action is a no-op — the trace is
exactly the initial `isDown := true` write, with no further write and no
dispatch. -/
theorem claim_C6 (s s' : LightSettings) (h : s'.isDown = false) :
    Light.onKeyDown s s' =
      ([Effect.setSettings { s with isDown := true }], none) := by
  simp [Light.onKeyDown, h]

/-- Witness for claim C6 at a concrete released-key record. -/
theorem claim_C6_witness :
    Light.onKeyDown sampleSettings sampleSettings =
      ([Effect.setSettings { sampleSettings with isDown := true }], none) :=
  claim_C6 sampleSettings sampleSettings rfl

/-- Claim C7 (confirmed): if the re-read settings at timer fire have
`isDown = true`, `onKeyDown` persists `longPress := true` and performs
exactly one dispatch, with the `colorRgb` stored in the re-read settings;
the color picker is not invoked. -/
theorem claim_C7 (s s' : LightSettings) (h : s'.isDown = true) :
    Light.onKeyDown s s' =
      ([Effect.setSettings { s with isDown := true },
        Effect.setSettings { s' with longPress := true },
        Effect.dispatch s'.colorRgb s'], none) ∧
    dispatchCount (Light.onKeyDown s s').1 = 1 ∧
    Effect.pickColor ∉ (Light.onKeyDown s s').1 := by
  have hne : ¬ s'.isDown = false := by simp [h]
  refine ⟨by simp [Light.onKeyDown, hne], ?_, ?_⟩
  · simp [Light.onKeyDown, hne, dispatchCount]
  · simp [Light.onKeyDown, hne]

/-- Witness for claim C7 at a concrete still-held record. -/
theorem claim_C7_witness :
    Light.onKeyDown sampleSettings { sampleSettings with isDown := true } =
      ([Effect.setSettings { sampleSettings with isDown := true },
        Effect.setSettings
          { { sampleSettings with isDown := true } with longPress := true },
        Effect.dispatch
          ({ sampleSettings with isDown := true } : LightSettings).colorRgb
          { sampleSettings with isDown := true }], none) ∧
    dispatchCount (Light.onKeyDown sampleSettings
      { sampleSettings with isDown := true }).1 = 1 ∧
    Effect.pickColor ∉ (Light.onKeyDown sampleSettings
      { sampleSettings with isDown := true }).1 :=
  claim_C7 sampleSettings { sampleSettings with isDown := true } rfl

/-- Claim C8 (counterexample): the short-press path does **not** validate the
parsed picker output.  `"[300,0,0]"` parses as JSON but is not a 3-element
integer array in `[0, 255]`; the claim then requires a `ColorPickerError`,
no dispatch, and unchanged color state — yet the code reports no error,
dispatches once with `[300, 0, 0]`, and persists `colorRgb = [300, 0, 0]`. -/
theorem claim_C8_counterexample :
    (Light.onKeyUp sampleSettings (PickerResult.ok [300, 0, 0])).2 = none ∧
    dispatchCount
      (Light.onKeyUp sampleSettings (PickerResult.ok [300, 0, 0])).1 = 1 ∧
    ((lastWrite
        (Light.onKeyUp sampleSettings (PickerResult.ok [300, 0, 0])).1).map
      (fun w => w.colorRgb) = some (some [300, 0, 0])) := by
  decide

/-- Claim C8 (amended): on the short-press path, only a failure of
`JSON.parse` (stdout that is not valid JSON) aborts the operation — the
parse exception propagates (there is no dedicated `ColorPickerError`), no
dispatch happens and no write beyond `isDown := false` is made.  Output that
parses as a JSON integer array is **not** checked for shape or range: the
code dispatches it and persists it unchanged. -/
theorem claim_C8_amended (s : LightSettings) (h : s.longPress = false) :
    (Light.onKeyUp s PickerResult.parseError =
      ([Effect.setSettings { s with isDown := false }, Effect.pickColor],
        some JsError.jsonParseError)) ∧
    (∀ c : List Int,
      (Light.onKeyUp s (PickerResult.ok c)).1 =
        [Effect.setSettings { s with isDown := false }, Effect.pickColor,
         Effect.dispatch (some c) s,
         Effect.setSettings
           { s with
             isDown := false
             colorHex := jsColorHex c
             longPress := false
             colorRgb := some c },
         Effect.setTitle (setTitle s), Effect.setImage c] ∧
      (Light.onKeyUp s (PickerResult.ok c)).2 = none) := by
  refine ⟨by simp [Light.onKeyUp, h], ?_⟩
  intro c
  exact ⟨by simp [Light.onKeyUp, h], by simp [Light.onKeyUp, h]⟩

/-- Witness for the amended claim C8 at concrete inputs, including the
unvalidated out-of-range color `[300, 0, 0]`. -/
theorem claim_C8_amended_witness :
    (Light.onKeyUp sampleSettings PickerResult.parseError =
      ([Effect.setSettings { sampleSettings with isDown := false },
        Effect.pickColor], some JsError.jsonParseError)) ∧
    (Light.onKeyUp sampleSettings (PickerResult.ok [300, 0, 0])).1 =
      [Effect.setSettings { sampleSettings with isDown := false },
       Effect.pickColor,
       Effect.dispatch (some [300, 0, 0]) sampleSettings,
       Effect.setSettings
         { sampleSettings with
           isDown := false
           colorHex := jsColorHex [300, 0, 0]
           longPress := false
           colorRgb := some [300, 0, 0] },
       Effect.setTitle (setTitle sampleSettings),
       Effect.setImage [300, 0, 0]] ∧
    (Light.onKeyUp sampleSettings (PickerResult.ok [300, 0, 0])).2 = none :=
  ⟨(claim_C8_amended sampleSettings rfl).1,
   ((claim_C8_amended sampleSettings rfl).2 [300, 0, 0]).1,
   ((claim_C8_amended sampleSettings rfl).2 [300, 0, 0]).2⟩

/-- Claim C9 (confirmed, conditional on the PNG codec): for any encoder the
decoder inverts, decoding the image produced by `createPngBase64` for an
in-range color yields the filled buffer, whose every pixel `(x, y)` of the
128×128 image holds exactly `(r, g, b)` with alpha 255; and the output is a
pure function of the color, so two calls with the same color are
byte-identical. -/
theorem claim_C9 {E : Type} (enc : Buf → E) (dec : E → Option Buf)
    (base64 : E → String) (hdec : ∀ bf : Buf, dec (enc bf) = some bf)
    (r g b : Nat) (hr : r ≤ 255) (hg : g ≤ 255) (hb : b ≤ 255)
    (x y : Nat) (hx : x < 128) (hy : y < 128) :
    (createPngBase64 enc base64 [r, g, b] =
      "data:image/png;base64," ++ base64 (enc (pngData r g b))) ∧
    dec (enc (pngData r g b)) = some (pngData r g b) ∧
    (pngData r g b ((128 * y + x) * 4) = r ∧
     pngData r g b ((128 * y + x) * 4 + 1) = g ∧
     pngData r g b ((128 * y + x) * 4 + 2) = b ∧
     pngData r g b ((128 * y + x) * 4 + 3) = 255) ∧
    createPngBase64 enc base64 [r, g, b] =
      createPngBase64 enc base64 [r, g, b] :=
  ⟨rfl, hdec (pngData r g b), pngData_pixel r g b x y hx hy hr hg hb, rfl⟩

/-- Witness for claim C9: the identity codec on buffers, color `(1, 2, 3)`,
pixel `(0, 0)`. -/
theorem claim_C9_witness :
    (createPngBase64 (fun bf => bf) (fun _ => "") [1, 2, 3] =
      "data:image/png;base64," ++ "") ∧
    (some (pngData 1 2 3) : Option Buf) = some (pngData 1 2 3) ∧
    (pngData 1 2 3 ((128 * 0 + 0) * 4) = 1 ∧
     pngData 1 2 3 ((128 * 0 + 0) * 4 + 1) = 2 ∧
     pngData 1 2 3 ((128 * 0 + 0) * 4 + 2) = 3 ∧
     pngData 1 2 3 ((128 * 0 + 0) * 4 + 3) = 255) ∧
    createPngBase64 (fun bf => bf) (fun _ => "") [1, 2, 3] =
      createPngBase64 (fun bf => bf) (fun _ => "") [1, 2, 3] :=
  claim_C9 (fun bf => bf) some (fun _ => "") (fun _ => rfl) 1 2 3
    (by decide) (by decide) (by decide) 0 0 (by decide) (by decide)

/-- Claim C10 (confirmed): `setTitle` yields `colorHex` when `showValue` is
`"hex"` and `colorHex` is non-empty, the array's `toString()` when
`showValue` is `"rgb"` and `colorRgb` is present, and the literal
`"Color\nPicker"` in every other case. -/
theorem claim_C10 (s : LightSettings) :
    (s.showValue = ShowValue.hex ∧ s.colorHex ≠ "" →
      setTitle s = s.colorHex) ∧
    (∀ l : List Int, s.showValue = ShowValue.rgb ∧ s.colorRgb = some l →
      setTitle s = jsArrayToString l) ∧
    (¬(s.showValue = ShowValue.hex ∧ s.colorHex ≠ "") ∧
     ¬(s.showValue = ShowValue.rgb ∧ s.colorRgb.isSome = true) →
      setTitle s = "Color\nPicker") := by
  refine ⟨?_, ?_, ?_⟩
  · intro h
    simp [setTitle, h]
  · intro l h
    have hhex : ¬(s.showValue = ShowValue.hex ∧ s.colorHex ≠ "") := by
      intro hc
      rw [h.1] at hc
      exact ShowValue.noConfusion hc.1
    rw [setTitle, if_neg hhex, if_pos ⟨h.1, by rw [h.2]; rfl⟩, h.2]
    rfl
  · intro h
    rw [setTitle, if_neg h.1, if_neg h.2]

/-- Witness for claim C10: all three branches at concrete records. -/
theorem claim_C10_witness :
    setTitle sampleSettings = sampleSettings.colorHex ∧
    setTitle { sampleSettings with showValue := ShowValue.rgb } =
      jsArrayToString [17, 34, 51] ∧
    setTitle { sampleSettings with showValue := ShowValue.none } =
      "Color\nPicker" :=
  ⟨(claim_C10 sampleSettings).1 ⟨rfl, by decide⟩,
   (claim_C10 { sampleSettings with showValue := ShowValue.rgb }).2.1
     [17, 34, 51] ⟨rfl, rfl⟩,
   (claim_C10 { sampleSettings with showValue := ShowValue.none }).2.2
     ⟨by decide, by decide⟩⟩
